import Mathlib

/- Verification of the dual-store retrieval-augmented dialogue engine
   implemented in main7.py. The Python source is shallowly embedded:
   the pickle file and the FAISS directory are modelled by the values
   they hold, external capabilities (generation, embedding, publish)
   are oracle parameters, and fallible capability calls return Except. -/

/- Python string helpers: the `in` substring test and str.lower. -/

def segIn (p : List Char) : List Char → Bool
  | [] => p.isEmpty
  | c :: rest => p.isPrefixOf (c :: rest) || segIn p rest

def containsTok (s t : String) : Bool := segIn t.data s.data

def lowerStr (s : String) : String := String.mk (s.data.map Char.toLower)

/- Data model. A ConversationBufferMemory is an ordered list of turns;
   a FAISS store is the ordered collection of stored texts (embeddings
   are abstracted into the distance oracle used by search). -/

inductive Role
  | user
  | assistant
deriving DecidableEq

structure Turn where
  role : Role
  content : String
deriving DecidableEq

abbrev Memory := List Turn

structure VectorStore where
  texts : List String
deriving DecidableEq

/- Constants from main7.py (lines 33-34, 37, 77, 131, 142). -/

def MEMORY_PATH : String := "memory.pkl"

def VECTORSTORE_PATH : String := "vectorstore_index"

def placeholderText : String := "初期化用のダミーテキストです。このテキストは検索には使用されません。"

def triggerToken : String := "保存"

def affirmativeToken : String := "はい"

def pageIdMissingMsg : String := "PAGE_ID is not set in .env file"

def newline : String := "\n"

/- Durable storage: memory.pkl and the vectorstore_index directory,
   each modelled by the value it currently holds (none = absent). -/

structure FS where
  memFile : Option Memory
  vsDir : Option VectorStore
deriving DecidableEq

structure SessionState where
  memory : Memory
  vectorstore : VectorStore
  fs : FS
deriving DecidableEq

/- History Store persistence, main7.py lines 49-65. -/

def load_memory (fs : FS) : Memory :=
  match fs.memFile with
  | some m => m
  | none => []

def save_memory (fs : FS) (memory : Memory) : FS :=
  { fs with memFile := some memory }

def refresh_memory (s : SessionState) : SessionState :=
  { s with memory := [], fs := { s.fs with memFile := none } }

/- Vector Knowledge Store, main7.py lines 70-107.
   FAISS.from_texts seeds the index with the given texts;
   add_texts appends; similarity_search sorts by the distance oracle
   (query embedding composed with the index metric) and takes k. -/

def FAISS_from_texts (ts : List String) : VectorStore := VectorStore.mk ts

def freshVectorStore : VectorStore := FAISS_from_texts [placeholderText]

def save_vectorstore (store : VectorStore) (fs : FS) : FS :=
  { fs with vsDir := some store }

def load_vectorstore (fs : FS) : VectorStore × FS :=
  match fs.vsDir with
  | some store => (store, fs)
  | none => (freshVectorStore, save_vectorstore freshVectorStore fs)

def add_texts (store : VectorStore) (ts : List String) : VectorStore :=
  VectorStore.mk (store.texts ++ ts)

def similarity_search (d : String → String → Nat) (store : VectorStore)
    (query : String) (k : Nat) : List String :=
  List.take k (List.insertionSort (fun a b => d query a ≤ d query b) store.texts)

/- refresh_vectorstore, main7.py lines 87-101. The in-memory store is
   replaced with a fresh placeholder-seeded index FIRST; only then is
   shutil.rmtree attempted on the durable directory. deleteOk is the
   oracle for whether rmtree succeeds; the returned Bool records
   whether a deletion failure was reported (the except branch). -/

def refresh_vectorstore (deleteOk : Bool) (s : SessionState) : SessionState × Bool :=
  let s1 := { s with vectorstore := FAISS_from_texts [placeholderText] }
  match s1.fs.vsDir with
  | some _ =>
      if deleteOk then ({ s1 with fs := { s1.fs with vsDir := none } }, false)
      else (s1, true)
  | none => (s1, false)

def refresh_all (deleteOk : Bool) (s : SessionState) : SessionState × Bool :=
  refresh_vectorstore deleteOk (refresh_memory s)

/- Intent classifier, main7.py lines 130-142. The pure version counts
   generation-capability calls in its second component. -/

def classifyPrompt (user_input : String) : String :=
  "\n    以下のユーザー発話は、AIとの議論内容をNotionに保存するように依頼している意図がありますか？\n    「はい」または「いいえ」で答えてください。\n\n    発話: \"" ++ user_input ++ "\"\n    "

def is_valid_save_command (llm : String → String) (user_input : String) : Bool × Nat :=
  if containsTok user_input triggerToken = false then (false, 0)
  else
    let decision := llm (classifyPrompt user_input)
    (containsTok decision affirmativeToken, 1)

def is_valid_save_commandE (llm : String → Except String String)
    (user_input : String) : Except String Bool :=
  if containsTok user_input triggerToken = false then Except.ok false
  else (llm (classifyPrompt user_input)).map
    (fun decision => containsTok decision affirmativeToken)

/- Summarizer input, main7.py lines 163-169: the joined contents of
   all turns followed by the fixed summary instruction. -/

def summaryPrompt : String :=
  "\n                これまでの議論内容をNotionに保存するのに適した形で要約してください。\n                特に、質疑応答を重視して、[質問]→[回答]の形式で示すようにしてください。\n                "

def joinContents (history : Memory) : String :=
  String.intercalate newline (history.map (fun msg => msg.content))

def summaryMessages (history : Memory) : String :=
  joinContents history ++ newline ++ summaryPrompt

/- Persisting branch, main7.py lines 161-185, with capabilities that
   succeed: one summarizer call, one Notion append, one vectorstore
   add, one vectorstore save; the History Store is not touched. -/

structure PersistTrace where
  summarizerInputs : List String
  published : List (String × String)
deriving DecidableEq

def persistingTurn (llm : String → String) (page_id : String)
    (s : SessionState) : SessionState × PersistTrace :=
  let messages := summaryMessages s.memory
  let summary := llm messages
  let vs := add_texts s.vectorstore [summary]
  let fs := save_vectorstore vs s.fs
  ({ s with vectorstore := vs, fs := fs },
   PersistTrace.mk [messages] [(page_id, summary)])

/- Conversing prompt, main7.py line 195. -/

def conversePrompt (history : Memory) (retrieved user_input : String) : String :=
  "これまでの会話: " ++ joinContents history ++ "\n\n関連議論: " ++ retrieved
    ++ "\n\nユーザー: " ++ user_input

/- Command dispatch, main7.py lines 149-159: exact match on the
   lowercased input, no stripping. -/

inductive Command
  | quitSession
  | refreshBoth
  | refreshMemoryOnly
  | refreshVectorstoreOnly
deriving DecidableEq

def dispatchCommand (user_input : String) : Option Command :=
  let l := lowerStr user_input
  if l = "exit" ∨ l = "quit" then some Command.quitSession
  else if l = "refresh" ∨ l = "clear" then some Command.refreshBoth
  else if l = "refresh memory" then some Command.refreshMemoryOnly
  else if l = "refresh vectorstore" then some Command.refreshVectorstoreOnly
  else none

def commandStrings : List String :=
  ["exit", "quit", "refresh", "clear", "refresh memory", "refresh vectorstore"]

/- One iteration of the dialogue loop, main7.py lines 147-198, with
   fallible capabilities. The only try-except in the loop body guards
   save_vectorstore (lines 180-183); every other capability failure
   propagates out of the while loop, which is modelled by the crashed
   outcome. The finally clause (lines 200-202) is sessionCleanup. -/

structure Caps where
  llm : String → Except String String
  embed : String → Except String Unit
  publish : String → String → Except String Unit
  dist : String → String → Nat
  vsSaveOk : Bool
  deleteOk : Bool

inductive Outcome
  | exited
  | continued
  | crashed (msg : String)
deriving DecidableEq

def loopIter (c : Caps) (page_id : String) (s : SessionState)
    (user_input : String) : SessionState × Outcome :=
  match dispatchCommand user_input with
  | some Command.quitSession => (s, Outcome.exited)
  | some Command.refreshBoth => ((refresh_all c.deleteOk s).1, Outcome.continued)
  | some Command.refreshMemoryOnly => (refresh_memory s, Outcome.continued)
  | some Command.refreshVectorstoreOnly =>
      ((refresh_vectorstore c.deleteOk s).1, Outcome.continued)
  | none =>
    match is_valid_save_commandE c.llm user_input with
    | Except.error e => (s, Outcome.crashed e)
    | Except.ok true =>
      match c.llm (summaryMessages s.memory) with
      | Except.error e => (s, Outcome.crashed e)
      | Except.ok summary =>
        match c.publish page_id summary with
        | Except.error e => (s, Outcome.crashed e)
        | Except.ok _ =>
          match c.embed summary with
          | Except.error e => (s, Outcome.crashed e)
          | Except.ok _ =>
            let vs := add_texts s.vectorstore [summary]
            let s1 := { s with vectorstore := vs }
            let s2 := if c.vsSaveOk then { s1 with fs := save_vectorstore vs s1.fs } else s1
            (s2, Outcome.continued)
    | Except.ok false =>
      let s1 := { s with memory := s.memory ++ [Turn.mk Role.user user_input] }
      match c.embed user_input with
      | Except.error e => (s1, Outcome.crashed e)
      | Except.ok _ =>
        let docs := similarity_search c.dist s1.vectorstore user_input 2
        let retrieved := String.intercalate newline docs
        let prompt := conversePrompt s1.memory retrieved user_input
        match c.llm prompt with
        | Except.error e => (s1, Outcome.crashed e)
        | Except.ok result =>
            ({ s1 with memory := s1.memory ++ [Turn.mk Role.assistant result] },
             Outcome.continued)

def sessionCleanup (s : SessionState) : FS := save_memory s.fs s.memory

/- Startup, main7.py lines 27-46, 67, 109: the PAGE_ID check happens
   before the clients, the History Store and the Vector Knowledge
   Store are created; a falsy PAGE_ID (absent or empty, Python
   truthiness) raises ValueError. -/

structure Config where
  OPENAI_API_KEY : Option String
  OPENAI_ORGANIZATION_ID : Option String
  NOTION_TOKEN : Option String
  PAGE_ID : Option String

def pyTruthy : Option String → Bool
  | none => false
  | some s => !(s.data.isEmpty)

structure StartupResult where
  page_id : String
  memory : Memory
  vectorstore : VectorStore
  fs : FS
deriving DecidableEq

def startup (cfg : Config) (fs0 : FS) : Except String StartupResult :=
  if pyTruthy cfg.PAGE_ID then
    Except.ok
      { page_id := cfg.PAGE_ID.getD "",
        memory := load_memory fs0,
        vectorstore := (load_vectorstore fs0).1,
        fs := (load_vectorstore fs0).2 }
  else Except.error pageIdMissingMsg

/- Trace model of save_memory, main7.py lines 55-57, at the
   granularity of file-system events: open(path, wb) truncates the
   target, pickle.dump writes the blob, then the handle is closed.
   A crash mid-write executes only a prefix of the trace. -/

inductive FsOp
  | openTrunc (path : String)
  | writeBlob (path : String) (log : Memory)
  | closeFile (path : String)
  | renameFile (src tgt : String)
deriving DecidableEq

inductive FileState
  | absent
  | torn
  | holds (log : Memory)
deriving DecidableEq

def applyOp (st : String → FileState) : FsOp → String → FileState
  | FsOp.openTrunc p, q => if q = p then FileState.torn else st q
  | FsOp.writeBlob p log, q => if q = p then FileState.holds log else st q
  | FsOp.closeFile _, q => st q
  | FsOp.renameFile src tgt, q =>
      if q = tgt then st src else if q = src then FileState.absent else st q

def runOps (st : String → FileState) : List FsOp → String → FileState
  | [], q => st q
  | op :: rest, q => runOps (applyOp st op) rest q

def save_memory_trace (memory : Memory) : List FsOp :=
  [FsOp.openTrunc MEMORY_PATH, FsOp.writeBlob MEMORY_PATH memory,
   FsOp.closeFile MEMORY_PATH]

/- Spec-side predicate (from the words of the specification, for the
   refinement comparison in C3): atomic replace semantics means the
   durable path is never truncated or written directly, and the data
   is swapped in by renaming a temporary location onto it. -/

def atomicReplaceTrace (ops : List FsOp) (durable : String) : Prop :=
  (∀ op ∈ ops, op ≠ FsOp.openTrunc durable ∧ ∀ log, op ≠ FsOp.writeBlob durable log) ∧
  ∃ tmp, tmp ≠ durable ∧ FsOp.renameFile tmp durable ∈ ops

/- Invariant used for C8: any durable vectorstore copy is non-empty. -/

def fsInv (fs : FS) : Prop :=
  ∀ store, fs.vsDir = some store → store.texts ≠ []

/- Iterated application, for the idempotence claim C7. -/

def iterOp (f : SessionState → SessionState) : Nat → SessionState → SessionState
  | 0, s => s
  | n + 1, s => iterOp f n (f s)

/- Concrete instances used by closed counterexamples and witnesses. -/

def oldSummaryText : String := "古い要約"

def c1_oldStore : VectorStore := VectorStore.mk [placeholderText, oldSummaryText]

def c1_state : SessionState :=
  { memory := [],
    vectorstore := c1_oldStore,
    fs := { memFile := none, vsDir := some c1_oldStore } }

def questionText : String := "What is X?"

def answerText : String := "X is Y"

def demoMemory : Memory := [Turn.mk Role.user questionText, Turn.mk Role.assistant answerText]

def c2_input : String := "これを保存して"

def c2_errMsg : String := "APIResponseError"

def c2_state : SessionState :=
  { memory := demoMemory,
    vectorstore := freshVectorStore,
    fs := { memFile := none, vsDir := some freshVectorStore } }

def c2_pageId : String := "page0"

def c2_capsPub : Caps :=
  { llm := fun _ => Except.ok affirmativeToken,
    embed := fun _ => Except.ok (),
    publish := fun _ _ => Except.error c2_errMsg,
    dist := fun _ _ => 0,
    vsSaveOk := true,
    deleteOk := true }

def c2_capsSave : Caps :=
  { llm := fun _ => Except.ok affirmativeToken,
    embed := fun _ => Except.ok (),
    publish := fun _ _ => Except.ok (),
    dist := fun _ _ => 0,
    vsSaveOk := false,
    deleteOk := true }

def c2_capsGen : Caps :=
  { llm := fun _ => Except.error c2_errMsg,
    embed := fun _ => Except.ok (),
    publish := fun _ _ => Except.ok (),
    dist := fun _ _ => 0,
    vsSaveOk := true,
    deleteOk := true }

def c2_capsSum : Caps :=
  { llm := fun p =>
      if p = classifyPrompt c2_input then Except.ok affirmativeToken
      else Except.error c2_errMsg,
    embed := fun _ => Except.ok (),
    publish := fun _ _ => Except.ok (),
    dist := fun _ _ => 0,
    vsSaveOk := true,
    deleteOk := true }

def c2_capsEmb : Caps :=
  { llm := fun _ => Except.ok affirmativeToken,
    embed := fun _ => Except.error c2_errMsg,
    publish := fun _ _ => Except.ok (),
    dist := fun _ _ => 0,
    vsSaveOk := true,
    deleteOk := true }

def c2_convInput : String := "こんにちは"

def oldQuestionText : String := "old question"

def oldAnswerText : String := "old answer"

def c3_oldLog : Memory := [Turn.mk Role.user oldQuestionText]

def c3_newLog : Memory :=
  [Turn.mk Role.user oldQuestionText, Turn.mk Role.assistant oldAnswerText]

def c3_fs0 : String → FileState :=
  fun q => if q = MEMORY_PATH then FileState.holds c3_oldLog else FileState.absent

def helloInput : String := "hello there"

def saveInput : String := "この議論を保存して"

def noAnswer : String := "いいえ"

def emptyFS : FS := { memFile := none, vsDir := none }

def c8_state : SessionState :=
  { memory := [], vectorstore := freshVectorStore, fs := emptyFS }

def c9_cfgMissing : Config :=
  { OPENAI_API_KEY := none, OPENAI_ORGANIZATION_ID := none,
    NOTION_TOKEN := none, PAGE_ID := none }

def demoPageId : String := "abc123"

def c9_cfgOk : Config :=
  { OPENAI_API_KEY := none, OPENAI_ORGANIZATION_ID := none,
    NOTION_TOKEN := none, PAGE_ID := some demoPageId }

def spacedExitInput : String := " exit"

def politeRefreshInput : String := "please refresh"

def upperExitInput : String := "Exit"

/-- C6: for every History Store log, including the empty log, persist
(save_memory) followed by load (load_memory) reproduces an equal
sequence of turns. -/
theorem c6_memory_roundtrip (fs : FS) (memory : Memory) :
    load_memory (save_memory fs memory) = memory := rfl

/-- C5: one Persisting turn calls the Summarizer exactly once with the
joined contents of all turns plus the fixed instruction, publishes the
summarizer output exactly once, adds exactly one new Vector Knowledge
Store entry equal to that output, and leaves the History Store
unchanged. -/
theorem c5_persisting_turn_effects (llm : String → String) (page_id : String)
    (s : SessionState) :
    (persistingTurn llm page_id s).2.summarizerInputs = [summaryMessages s.memory] ∧
    (persistingTurn llm page_id s).2.published =
      [(page_id, llm (summaryMessages s.memory))] ∧
    (persistingTurn llm page_id s).1.vectorstore.texts =
      s.vectorstore.texts ++ [llm (summaryMessages s.memory)] ∧
    (persistingTurn llm page_id s).1.memory = s.memory :=
  ⟨rfl, rfl, rfl, rfl⟩

/-- C1: evaluation of refresh_vectorstore at a state whose durable copy
exists, with a failing deletion: the failure is reported, yet the
in-memory store has already been replaced by the fresh
placeholder-seeded store while the durable copy still holds the stale
data, so the two disagree, contrary to the claim. -/
theorem c1_refresh_vectorstore_divergence :
    (refresh_vectorstore false c1_state).2 = true ∧
    (refresh_vectorstore false c1_state).1.vectorstore = freshVectorStore ∧
    (refresh_vectorstore false c1_state).1.vectorstore ≠ c1_oldStore ∧
    (refresh_vectorstore false c1_state).1.fs.vsDir = some c1_oldStore := by
  refine ⟨rfl, rfl, ?_, rfl⟩
  decide

/-- C3 counterexample: the save_memory trace is not an atomic-replace
trace (it truncates the durable path directly), and interrupting it
after the truncation leaves the durable file torn: neither the old log
nor the new log. -/
theorem c3_save_memory_not_atomic :
    ¬ atomicReplaceTrace (save_memory_trace c3_newLog) MEMORY_PATH ∧
    runOps c3_fs0 (List.take 1 (save_memory_trace c3_newLog)) MEMORY_PATH
      = FileState.torn ∧
    FileState.torn ≠ FileState.holds c3_oldLog ∧
    FileState.torn ≠ FileState.holds c3_newLog := by
  refine ⟨fun h => ?_, rfl, by decide, by decide⟩
  exact (h.1 (FsOp.openTrunc MEMORY_PATH) (by simp [save_memory_trace])).1 rfl

/-- C3 amended: save_memory serializes the full log by truncating the
durable path in place and writing the blob directly; no rename ever
swaps data onto the durable path. A completed save leaves exactly the
new log visible to the next load, but the prefix interrupted after the
truncation leaves the durable file torn. -/
theorem c3_amended_direct_overwrite (memory : Memory) (st : String → FileState) :
    FsOp.openTrunc MEMORY_PATH ∈ save_memory_trace memory ∧
    (∀ src, FsOp.renameFile src MEMORY_PATH ∉ save_memory_trace memory) ∧
    runOps st (save_memory_trace memory) MEMORY_PATH = FileState.holds memory ∧
    runOps st (List.take 1 (save_memory_trace memory)) MEMORY_PATH = FileState.torn := by
  refine ⟨by simp [save_memory_trace], ?_, ?_, ?_⟩
  · intro src h
    simp [save_memory_trace] at h
  · simp [save_memory_trace, runOps, applyOp]
  · simp [save_memory_trace, runOps, applyOp]

/-- C4: the Intent Classifier returns false with zero generation calls
when the input lacks the trigger token; when the input contains it,
exactly one generation call is made and the verdict is true iff the
response contains the affirmative token. -/
theorem c4_is_valid_save_command_spec (llm : String → String) (u : String) :
    (containsTok u triggerToken = false → is_valid_save_command llm u = (false, 0)) ∧
    (containsTok u triggerToken = true →
      (is_valid_save_command llm u).2 = 1 ∧
      ((is_valid_save_command llm u).1 = true ↔
        containsTok (llm (classifyPrompt u)) affirmativeToken = true)) := by
  constructor
  · intro h
    simp [is_valid_save_command, h]
  · intro h
    simp [is_valid_save_command, h]

/-- C4 witness: concrete instances of both branches of the classifier
contract. -/
theorem c4_witness :
    is_valid_save_command (fun _ => affirmativeToken) helloInput = (false, 0) ∧
    ((is_valid_save_command (fun _ => noAnswer) saveInput).2 = 1 ∧
      ((is_valid_save_command (fun _ => noAnswer) saveInput).1 = true ↔
        containsTok ((fun _ : String => noAnswer) (classifyPrompt saveInput))
          affirmativeToken = true)) :=
  ⟨(c4_is_valid_save_command_spec (fun _ => affirmativeToken) helloInput).1 (by decide),
   (c4_is_valid_save_command_spec (fun _ => noAnswer) saveInput).2 (by decide)⟩

theorem refresh_memory_idem (s : SessionState) :
    refresh_memory (refresh_memory s) = refresh_memory s := rfl

theorem refresh_vectorstore_true_eq (s : SessionState) :
    refresh_vectorstore true s =
      ({ s with vectorstore := freshVectorStore, fs := { s.fs with vsDir := none } },
       false) := by
  obtain ⟨mem, vs, mf, vd⟩ := s
  cases vd <;> rfl

theorem refresh_all_true_eq (s : SessionState) :
    refresh_all true s =
      ({ memory := [], vectorstore := freshVectorStore,
         fs := { memFile := none, vsDir := none } }, false) := by
  obtain ⟨mem, vs, mf, vd⟩ := s
  cases vd <;> rfl

theorem iterOp_of_idem (f : SessionState → SessionState)
    (hf : ∀ s, f (f s) = f s) :
    ∀ (n : Nat) (s : SessionState), iterOp f (n + 1) s = f s
  | 0, _ => rfl
  | n + 1, s => by
      have h1 : iterOp f (n + 1 + 1) s = iterOp f (n + 1) (f s) := rfl
      rw [h1, iterOp_of_idem f hf n (f s), hf]

/-- C7: each refresh operation is idempotent: any positive number of
consecutive calls from any state ends in the same canonical
empty/placeholder-seeded state, in memory and on durable storage, and
no failure is reported. -/
theorem c7_refresh_idempotent (s : SessionState) (n : Nat) :
    (iterOp refresh_memory (n + 1) s = refresh_memory s ∧
     (refresh_memory s).memory = [] ∧ (refresh_memory s).fs.memFile = none) ∧
    (iterOp (fun t => (refresh_vectorstore true t).1) (n + 1) s
        = (refresh_vectorstore true s).1 ∧
     (refresh_vectorstore true s).1.vectorstore = freshVectorStore ∧
     (refresh_vectorstore true s).1.fs.vsDir = none ∧
     (refresh_vectorstore true s).2 = false) ∧
    (iterOp (fun t => (refresh_all true t).1) (n + 1) s = (refresh_all true s).1 ∧
     (refresh_all true s).1 =
       { memory := [], vectorstore := freshVectorStore,
         fs := { memFile := none, vsDir := none } } ∧
     (refresh_all true s).2 = false) := by
  refine ⟨⟨iterOp_of_idem refresh_memory refresh_memory_idem n s, rfl, rfl⟩,
          ⟨?_, ?_, ?_, ?_⟩, ⟨?_, ?_, ?_⟩⟩
  · exact iterOp_of_idem _ (fun t => by simp [refresh_vectorstore_true_eq]) n s
  · simp [refresh_vectorstore_true_eq]
  · simp [refresh_vectorstore_true_eq]
  · simp [refresh_vectorstore_true_eq]
  · exact iterOp_of_idem _ (fun t => by simp [refresh_all_true_eq]) n s
  · simp [refresh_all_true_eq]
  · simp [refresh_all_true_eq]

/-- C10: an input is treated as an interactive command exactly when its
lowercased form equals one of the six literal command strings; inputs
with surrounding whitespace or extra words are ordinary dialogue
turns, while case variants of a command are recognized. -/
theorem c10_command_dispatch (user_input : String) :
    ((dispatchCommand user_input).isSome = true ↔ lowerStr user_input ∈ commandStrings) ∧
    dispatchCommand spacedExitInput = none ∧
    dispatchCommand politeRefreshInput = none ∧
    dispatchCommand upperExitInput = some Command.quitSession := by
  refine ⟨?_, by decide, by decide, by decide⟩
  simp only [dispatchCommand, commandStrings, List.mem_cons, List.not_mem_nil, or_false]
  split
  · simp_all
    tauto
  · split
    · simp_all
      tauto
    · split
      · simp_all
      · split
        · simp_all
        · simp_all

/-- C8: the Vector Knowledge Store is never observably empty: the store
returned by load_or_init is non-empty, any reset yields the non-empty
placeholder-seeded store, search with k at least 1 on a non-empty
store returns at least one entry, and add and persist preserve
non-emptiness of the store and of the durable copy. -/
theorem c8_vectorstore_nonempty (fs : FS) (hfs : fsInv fs) (s : SessionState)
    (vs : VectorStore) (hvs : vs.texts ≠ []) (d : String → String → Nat)
    (q t : String) (k : Nat) (hk : 1 ≤ k) (ok : Bool) :
    (load_vectorstore fs).1.texts ≠ [] ∧
    fsInv (load_vectorstore fs).2 ∧
    (refresh_vectorstore ok s).1.vectorstore.texts ≠ [] ∧
    1 ≤ (similarity_search d vs q k).length ∧
    (add_texts vs [t]).texts ≠ [] ∧
    fsInv (save_vectorstore vs fs) := by
  refine ⟨?_, ?_, ?_, ?_, ?_, ?_⟩
  · cases h : fs.vsDir with
    | some store =>
        simp [load_vectorstore, h]
        exact hfs store h
    | none =>
        simp [load_vectorstore, h, freshVectorStore, FAISS_from_texts]
  · cases h : fs.vsDir with
    | some store =>
        simp only [load_vectorstore, h]
        exact hfs
    | none =>
        unfold fsInv
        intro store hstore
        simp [load_vectorstore, h, save_vectorstore] at hstore
        rw [← hstore]
        simp [freshVectorStore, FAISS_from_texts]
  · obtain ⟨mem, ivs, mf, vd⟩ := s
    unfold refresh_vectorstore
    cases vd <;> cases ok <;> simp [FAISS_from_texts]
  · have hlen : (similarity_search d vs q k).length = min k vs.texts.length := by
      simp [similarity_search, List.length_take, List.length_insertionSort]
    rw [hlen]
    exact le_min hk (List.length_pos.mpr hvs)
  · simp [add_texts]
  · unfold fsInv
    intro store hstore
    simp [save_vectorstore] at hstore
    rw [← hstore]
    exact hvs

/-- C8 witness: the non-emptiness facts evaluated at a concrete empty
file system, the fresh placeholder-seeded store, a constant distance
oracle and k equal to 1. -/
theorem c8_witness :
    (load_vectorstore emptyFS).1.texts ≠ [] ∧
    fsInv (load_vectorstore emptyFS).2 ∧
    (refresh_vectorstore true c8_state).1.vectorstore.texts ≠ [] ∧
    1 ≤ (similarity_search (fun _ _ => 0) freshVectorStore questionText 1).length ∧
    (add_texts freshVectorStore [answerText]).texts ≠ [] ∧
    fsInv (save_vectorstore freshVectorStore emptyFS) :=
  c8_vectorstore_nonempty emptyFS
    (by unfold fsInv; intro store h; simp [emptyFS] at h) c8_state
    freshVectorStore (by decide) (fun _ _ => 0) questionText answerText 1
    (by decide) true

/-- C9: startup fails fast with the fatal PAGE_ID error exactly when
the configured page identifier is falsy (absent, as when missing from
the environment, or empty); any truthy identifier yields a fully
initialized session, so no other condition terminates startup. -/
theorem c9_startup_failfast (cfg : Config) (fs0 : FS) :
    (cfg.PAGE_ID = none → startup cfg fs0 = Except.error pageIdMissingMsg) ∧
    (pyTruthy cfg.PAGE_ID = false → startup cfg fs0 = Except.error pageIdMissingMsg) ∧
    (pyTruthy cfg.PAGE_ID = true →
      startup cfg fs0 = Except.ok
        { page_id := cfg.PAGE_ID.getD "",
          memory := load_memory fs0,
          vectorstore := (load_vectorstore fs0).1,
          fs := (load_vectorstore fs0).2 }) := by
  refine ⟨?_, ?_, ?_⟩
  · intro h
    simp [startup, h, pyTruthy]
  · intro h
    simp [startup, h]
  · intro h
    simp [startup, h]

/-- C9 witness: a configuration with no PAGE_ID fails with the fatal
message; the same configuration with a page identifier starts up. -/
theorem c9_witness :
    startup c9_cfgMissing emptyFS = Except.error pageIdMissingMsg ∧
    startup c9_cfgOk emptyFS = Except.ok
      { page_id := demoPageId,
        memory := load_memory emptyFS,
        vectorstore := (load_vectorstore emptyFS).1,
        fs := (load_vectorstore emptyFS).2 } :=
  ⟨(c9_startup_failfast c9_cfgMissing emptyFS).1 rfl,
   (c9_startup_failfast c9_cfgOk emptyFS).2.2 (by decide)⟩

/-- C2 counterexample: a concrete Persisting turn in which the Notion
append fails: the loop iteration ends in the crashed outcome, not the
continued outcome, so a publish failure terminates the session rather
than returning control to Idle. -/
theorem c2_publish_failure_crashes :
    (loopIter c2_capsPub c2_pageId c2_state c2_input).2 = Outcome.crashed c2_errMsg ∧
    (loopIter c2_capsPub c2_pageId c2_state c2_input).2 ≠ Outcome.continued := by
  constructor
  · decide
  · decide

/-- C2 amended: only the guarded vectorstore save failure is caught:
with it the turn still completes and control returns to Idle with the
durable copy unchanged. Every other capability failure propagates out
of the loop with the crashed outcome, and only the cleanup step then
persists the History Store: a generation failure during
classification, a generation failure during summarization, a publish
failure, an embedding failure while adding the summary, an embedding
failure during the Conversing search (after the user turn was already
appended), and a generation failure while producing the reply. -/
theorem c2_amended_failure_propagation (c : Caps) (pid : String) (s : SessionState)
    (u : String) (hcmd : dispatchCommand u = none) :
    (∀ e, containsTok u triggerToken = true →
       c.llm (classifyPrompt u) = Except.error e →
       (loopIter c pid s u).2 = Outcome.crashed e ∧
       load_memory (sessionCleanup (loopIter c pid s u).1)
         = (loopIter c pid s u).1.memory) ∧
    (∀ e, is_valid_save_commandE c.llm u = Except.ok true →
       c.llm (summaryMessages s.memory) = Except.error e →
       (loopIter c pid s u).2 = Outcome.crashed e ∧
       load_memory (sessionCleanup (loopIter c pid s u).1)
         = (loopIter c pid s u).1.memory) ∧
    (∀ sum e, is_valid_save_commandE c.llm u = Except.ok true →
       c.llm (summaryMessages s.memory) = Except.ok sum →
       c.publish pid sum = Except.error e →
       (loopIter c pid s u).2 = Outcome.crashed e ∧
       load_memory (sessionCleanup (loopIter c pid s u).1)
         = (loopIter c pid s u).1.memory) ∧
    (∀ sum e, is_valid_save_commandE c.llm u = Except.ok true →
       c.llm (summaryMessages s.memory) = Except.ok sum →
       c.publish pid sum = Except.ok () →
       c.embed sum = Except.error e →
       (loopIter c pid s u).2 = Outcome.crashed e ∧
       load_memory (sessionCleanup (loopIter c pid s u).1)
         = (loopIter c pid s u).1.memory) ∧
    (∀ e, is_valid_save_commandE c.llm u = Except.ok false →
       c.embed u = Except.error e →
       (loopIter c pid s u).2 = Outcome.crashed e ∧
       (loopIter c pid s u).1.memory = s.memory ++ [Turn.mk Role.user u] ∧
       load_memory (sessionCleanup (loopIter c pid s u).1)
         = (loopIter c pid s u).1.memory) ∧
    (∀ e, is_valid_save_commandE c.llm u = Except.ok false →
       c.embed u = Except.ok () →
       c.llm (conversePrompt (s.memory ++ [Turn.mk Role.user u])
         (String.intercalate newline (similarity_search c.dist s.vectorstore u 2)) u)
         = Except.error e →
       (loopIter c pid s u).2 = Outcome.crashed e ∧
       load_memory (sessionCleanup (loopIter c pid s u).1)
         = (loopIter c pid s u).1.memory) ∧
    (∀ sum, is_valid_save_commandE c.llm u = Except.ok true →
       c.llm (summaryMessages s.memory) = Except.ok sum →
       c.publish pid sum = Except.ok () →
       c.embed sum = Except.ok () →
       c.vsSaveOk = false →
       (loopIter c pid s u).2 = Outcome.continued ∧
       (loopIter c pid s u).1.fs = s.fs ∧
       (loopIter c pid s u).1.vectorstore.texts = s.vectorstore.texts ++ [sum]) := by
  refine ⟨?_, ?_, ?_, ?_, ?_, ?_, ?_⟩
  · intro e htrig herr
    have hclass : is_valid_save_commandE c.llm u = Except.error e := by
      unfold is_valid_save_commandE
      rw [htrig]
      simp [herr, Except.map]
    simp only [loopIter, hcmd, hclass]
    simp [sessionCleanup, save_memory, load_memory]
  · intro e hcls herr
    simp only [loopIter, hcmd, hcls, herr]
    simp [sessionCleanup, save_memory, load_memory]
  · intro sum e hcls hsum hpub
    simp only [loopIter, hcmd, hcls, hsum, hpub]
    simp [sessionCleanup, save_memory, load_memory]
  · intro sum e hcls hsum hpub hemb
    simp only [loopIter, hcmd, hcls, hsum, hpub, hemb]
    simp [sessionCleanup, save_memory, load_memory]
  · intro e hcls hemb
    simp only [loopIter, hcmd, hcls, hemb]
    simp [sessionCleanup, save_memory, load_memory]
  · intro e hcls hemb hgen
    simp only [loopIter, hcmd, hcls, hemb, hgen]
    simp [sessionCleanup, save_memory, load_memory]
  · intro sum hcls hsum hpub hemb hsave
    simp only [loopIter, hcmd, hcls, hsum, hpub, hemb, hsave]
    simp [add_texts]

/-- C2 amended witness: each branch of the amended claim at a concrete
state: failing classification generation, failing summarization
generation, failing publish, failing persisting-path embedding,
failing conversing-path embedding, and failing reply generation all
crash the turn while the cleanup still recovers the history; a
failing vectorstore save leaves the turn continued with the durable
copy untouched. -/
theorem c2_amended_witness :
    ((loopIter c2_capsGen c2_pageId c2_state c2_input).2 = Outcome.crashed c2_errMsg ∧
     load_memory (sessionCleanup (loopIter c2_capsGen c2_pageId c2_state c2_input).1)
       = (loopIter c2_capsGen c2_pageId c2_state c2_input).1.memory) ∧
    ((loopIter c2_capsSum c2_pageId c2_state c2_input).2 = Outcome.crashed c2_errMsg ∧
     load_memory (sessionCleanup (loopIter c2_capsSum c2_pageId c2_state c2_input).1)
       = (loopIter c2_capsSum c2_pageId c2_state c2_input).1.memory) ∧
    ((loopIter c2_capsPub c2_pageId c2_state c2_input).2 = Outcome.crashed c2_errMsg ∧
     load_memory (sessionCleanup (loopIter c2_capsPub c2_pageId c2_state c2_input).1)
       = (loopIter c2_capsPub c2_pageId c2_state c2_input).1.memory) ∧
    ((loopIter c2_capsEmb c2_pageId c2_state c2_input).2 = Outcome.crashed c2_errMsg ∧
     load_memory (sessionCleanup (loopIter c2_capsEmb c2_pageId c2_state c2_input).1)
       = (loopIter c2_capsEmb c2_pageId c2_state c2_input).1.memory) ∧
    ((loopIter c2_capsEmb c2_pageId c2_state c2_convInput).2 = Outcome.crashed c2_errMsg ∧
     (loopIter c2_capsEmb c2_pageId c2_state c2_convInput).1.memory
       = c2_state.memory ++ [Turn.mk Role.user c2_convInput] ∧
     load_memory (sessionCleanup (loopIter c2_capsEmb c2_pageId c2_state c2_convInput).1)
       = (loopIter c2_capsEmb c2_pageId c2_state c2_convInput).1.memory) ∧
    ((loopIter c2_capsGen c2_pageId c2_state c2_convInput).2 = Outcome.crashed c2_errMsg ∧
     load_memory (sessionCleanup (loopIter c2_capsGen c2_pageId c2_state c2_convInput).1)
       = (loopIter c2_capsGen c2_pageId c2_state c2_convInput).1.memory) ∧
    ((loopIter c2_capsSave c2_pageId c2_state c2_input).2 = Outcome.continued ∧
     (loopIter c2_capsSave c2_pageId c2_state c2_input).1.fs = c2_state.fs ∧
     (loopIter c2_capsSave c2_pageId c2_state c2_input).1.vectorstore.texts
       = c2_state.vectorstore.texts ++ [affirmativeToken]) :=
  ⟨(c2_amended_failure_propagation c2_capsGen c2_pageId c2_state c2_input
      (by decide)).1 c2_errMsg (by decide) rfl,
   (c2_amended_failure_propagation c2_capsSum c2_pageId c2_state c2_input
      (by decide)).2.1 c2_errMsg rfl rfl,
   (c2_amended_failure_propagation c2_capsPub c2_pageId c2_state c2_input
      (by decide)).2.2.1 affirmativeToken c2_errMsg rfl rfl rfl,
   (c2_amended_failure_propagation c2_capsEmb c2_pageId c2_state c2_input
      (by decide)).2.2.2.1 affirmativeToken c2_errMsg rfl rfl rfl rfl,
   (c2_amended_failure_propagation c2_capsEmb c2_pageId c2_state c2_convInput
      (by decide)).2.2.2.2.1 c2_errMsg rfl rfl,
   (c2_amended_failure_propagation c2_capsGen c2_pageId c2_state c2_convInput
      (by decide)).2.2.2.2.2.1 c2_errMsg rfl rfl rfl,
   (c2_amended_failure_propagation c2_capsSave c2_pageId c2_state c2_input
      (by decide)).2.2.2.2.2.2 affirmativeToken rfl rfl rfl rfl rfl⟩
